import Mathlib

/-!
# Verification of the js-ipfs-fetch request adapter

A shallow embedding of the request-routing and response-building core of
`src/index.js` (the `makeIPFSFetch` adapter), together with theorems that
settle the frozen specification claims.

Conventions of the embedding:
* JS strings are Lean `String`; byte sequences (`Buffer`, file contents,
  `ipfs.cat` streams) are `List Nat` with each entry a byte value.
* External collaborators (the `range-parser` module, the MIME database,
  the IPFS client's CID values, multipart parsing, pubsub transport) are
  abstracted as inputs: the handler code is embedded exactly, and the
  values such collaborators produce are parameters of the definitions.
* JS object header maps are association lists updated with
  replace-or-append semantics, matching property assignment.
-/

namespace IpfsFetch

/-- Header maps: JS objects keyed by header name.  Assignment
`headers[k] = v` replaces an existing property or appends a new one. -/
def setHeader (hs : List (String × String)) (k v : String) : List (String × String) :=
  match hs with
  | [] => [(k, v)]
  | (k', v') :: rest => if k' = k then (k, v) :: rest else (k', v') :: setHeader rest k v

/-- Property lookup on a JS object header map. -/
def getHeader (hs : List (String × String)) (k : String) : Option String :=
  match hs with
  | [] => none
  | (k', v') :: rest => if k' = k then some v' else getHeader rest k

/-- `DEFAULT_HEADERS` from the source. -/
def DEFAULT_HEADERS : List (String × String) :=
  [("Content-Type", "text/plain; charset=utf-8")]

/-- `String.startsWith` over the underlying character list, so terms
evaluate by kernel reduction. -/
def strStartsWith (s p : String) : Bool :=
  p.data.isPrefixOf s.data

/-- `String.endsWith` over the underlying character list. -/
def strEndsWith (s p : String) : Bool :=
  p.data.isSuffixOf s.data

/-- `getMimeType` from the source: `mime.getType(path) || 'text/plain'`,
with `; charset=utf-8` appended to `text/*` types.  The MIME database is an
external collaborator, passed in as `lookup`. -/
def getMimeType (lookup : String → Option String) (path : String) : String :=
  let mimeType := (lookup path).getD "text/plain"
  if strStartsWith mimeType "text/" then mimeType ++ "; charset=utf-8" else mimeType

/-- `ipfs.cat(path, {offset, length})`: the byte slice of a file.  With no
offset/length the whole content streams. -/
def ipfsCat (content : List Nat) (offset : Nat) (length : Option Nat) : List Nat :=
  match length with
  | some len => ((content.drop offset).take len)
  | none => content.drop offset

/-- JS `a || b` on an optional string: the fallback fires when the value is
absent or empty (falsy). -/
def jsOr (o : Option String) (d : String) : String :=
  match o with
  | some s => if s = "" then d else s
  | none => d

/-- Entry kind reported by the unixfs exporter stat. -/
inductive EntryType where
  | directory
  | file
  | raw
deriving DecidableEq, Repr

/-- Entry descriptor from `exporter(path, ipfs.block)`: kind and size. -/
structure Stat where
  type : EntryType
  size : Nat
deriving DecidableEq, Repr

/-- Result of `parseRange(size, header)` from the external `range-parser`
module: `-1`/`-2` (unsatisfiable/malformed, both non-arrays) collapse to
`err`; a successful parse is a list of `(start, end)` pairs tagged with the
range type string (`ranges.type`). -/
inductive RangeParse where
  | err : RangeParse
  | ok (type : String) (ranges : List (Nat × Nat)) : RangeParse
deriving DecidableEq, Repr

/-- A response body: a byte stream (`ipfs.cat`, `ipfs.block.get`,
`ipfs.dag.export`) or a text page (directory listings). -/
inductive BodyData where
  | bytes (b : List Nat)
  | text (s : String)
deriving DecidableEq, Repr

/-- Response record for the GET-serving paths: status, headers, body. -/
structure FileResponse where
  status : Nat
  headers : List (String × String)
  body : BodyData
deriving DecidableEq, Repr

/-- `serveFile` from the source.  `contentOf` embeds `ipfs.cat` (the bytes
of a path) and `statOf` the exporter stat used for `size`; `filenameParam`
is `searchParams.get('filename')`, `rangeHeader` the `Range` request header
after the `|| ''` default, and `parse` the external `range-parser`
collaborator.  The `headers` argument mirrors the caller-supplied header
object. -/
def serveFile (lookup : String → Option String) (parse : Nat → String → RangeParse)
    (contentOf : String → List Nat) (statOf : String → Stat) (path : String)
    (filenameParam : Option String) (rangeHeader : String)
    (headers : List (String × String) := DEFAULT_HEADERS) : FileResponse :=
  let headers := setHeader headers "Accept-Ranges" "bytes"
  let size := (statOf path).size
  let mimeName := jsOr filenameParam path
  let headers := setHeader headers "Content-Type" (getMimeType lookup mimeName)
  -- `if (isRanged)`: the header string is truthy iff nonempty
  if rangeHeader ≠ "" then
    -- `if (ranges && ranges.length && ranges.type === 'bytes')`
    match parse size rangeHeader with
    | RangeParse.ok t ((s, e) :: _) =>
      if t = "bytes" then
        let length := e - s + 1
        let headers := setHeader headers "Content-Length" (toString length)
        let headers := setHeader headers "Content-Range"
          ("bytes " ++ toString s ++ "-" ++ toString e ++ "/" ++ toString size)
        { status := 206, headers := headers,
          body := BodyData.bytes (ipfsCat (contentOf path) s (some length)) }
      else
        { status := 200, headers := setHeader headers "Content-Length" (toString size),
          body := BodyData.bytes (ipfsCat (contentOf path) 0 none) }
    | _ =>
      { status := 200, headers := setHeader headers "Content-Length" (toString size),
        body := BodyData.bytes (ipfsCat (contentOf path) 0 none) }
  else
    { status := 200, headers := setHeader headers "Content-Length" (toString size),
      body := BodyData.bytes (ipfsCat (contentOf path) 0 none) }

/-- The branch condition of `serveFile`'s 206 path, as a summary of the
parse outcome: the first range of a nonempty `bytes`-typed parse result. -/
def firstBytesRange (p : RangeParse) : Option (Nat × Nat) :=
  match p with
  | RangeParse.ok t (r :: _) => if t = "bytes" then some r else none
  | _ => none

end IpfsFetch

namespace IpfsFetch

/-- A range parser that returns two `bytes` ranges, the outcome
`range-parser` produces for `Range: bytes=0-4,6-8` on a 12-byte file. -/
def rangeParseTwo : Nat → String → RangeParse :=
  fun _ _ => RangeParse.ok "bytes" [(0, 4), (6, 8)]

/-- A range parser returning the single range `[1,3]`, the outcome for
`Range: bytes=1-3` on a 12-byte file. -/
def rangeParseSingle : Nat → String → RangeParse :=
  fun _ _ => RangeParse.ok "bytes" [(1, 3)]

/-- The bytes of the string `"Hello World!"`. -/
def helloWorldBytes : List Nat :=
  [72, 101, 108, 108, 111, 32, 87, 111, 114, 108, 100, 33]

end IpfsFetch

/-- C1 (amended): for a GET of a file with a Range header, if the header is
present and parses to a `bytes`-typed result whose range list is nonempty,
the response is 206 for the FIRST parsed range `[s,e]` with
`Content-Range: bytes s-e/n`, `Content-Length: e-s+1` and a body streaming
bytes `s ..` of length `e-s+1`; if the header is absent, fails to parse, is
non-`bytes`-typed, or parses to an empty list, the response is the full file
with status 200 and `Content-Length` n. -/
theorem claim_C1_range_serving
    (lookup : String → Option String) (parse : Nat → String → IpfsFetch.RangeParse)
    (contentOf : String → List Nat) (statOf : String → IpfsFetch.Stat)
    (path : String) (filenameParam : Option String) (rangeHeader : String) :
    (∀ s e rest, rangeHeader ≠ "" →
      parse (statOf path).size rangeHeader = IpfsFetch.RangeParse.ok "bytes" ((s, e) :: rest) →
      (IpfsFetch.serveFile lookup parse contentOf statOf path filenameParam
        rangeHeader).status = 206 ∧
      IpfsFetch.getHeader (IpfsFetch.serveFile lookup parse contentOf statOf path filenameParam
          rangeHeader).headers "Content-Range" =
        some ("bytes " ++ toString s ++ "-" ++ toString e ++ "/" ++
          toString (statOf path).size) ∧
      IpfsFetch.getHeader (IpfsFetch.serveFile lookup parse contentOf statOf path filenameParam
          rangeHeader).headers "Content-Length" = some (toString (e - s + 1)) ∧
      (IpfsFetch.serveFile lookup parse contentOf statOf path filenameParam rangeHeader).body =
        IpfsFetch.BodyData.bytes (((contentOf path).drop s).take (e - s + 1))) ∧
    ((rangeHeader = "" ∨
        IpfsFetch.firstBytesRange (parse (statOf path).size rangeHeader) = none) →
      (IpfsFetch.serveFile lookup parse contentOf statOf path filenameParam
        rangeHeader).status = 200 ∧
      IpfsFetch.getHeader (IpfsFetch.serveFile lookup parse contentOf statOf path filenameParam
          rangeHeader).headers "Content-Length" = some (toString (statOf path).size) ∧
      (IpfsFetch.serveFile lookup parse contentOf statOf path filenameParam rangeHeader).body =
        IpfsFetch.BodyData.bytes (contentOf path)) := by
  constructor
  · intro s e rest hne hp
    simp only [IpfsFetch.serveFile, if_pos hne, hp]
    simp [IpfsFetch.setHeader, IpfsFetch.getHeader, IpfsFetch.ipfsCat, IpfsFetch.DEFAULT_HEADERS]
  · intro h
    by_cases hr : rangeHeader = ""
    · simp only [IpfsFetch.serveFile, hr]
      simp [IpfsFetch.setHeader, IpfsFetch.getHeader, IpfsFetch.ipfsCat, IpfsFetch.DEFAULT_HEADERS]
    · have hf : IpfsFetch.firstBytesRange (parse (statOf path).size rangeHeader) = none := by
        rcases h with h | h
        · exact absurd h hr
        · exact h
      simp only [IpfsFetch.serveFile, if_pos hr]
      cases hp : parse (statOf path).size rangeHeader with
      | err =>
        simp [IpfsFetch.setHeader, IpfsFetch.getHeader, IpfsFetch.ipfsCat,
          IpfsFetch.DEFAULT_HEADERS]
      | ok t rs =>
        cases rs with
        | nil =>
          simp [IpfsFetch.setHeader, IpfsFetch.getHeader, IpfsFetch.ipfsCat,
            IpfsFetch.DEFAULT_HEADERS]
        | cons r rest =>
          have ht : t ≠ "bytes" := by
            rw [hp] at hf
            simp only [IpfsFetch.firstBytesRange] at hf
            intro hcon
            rw [if_pos hcon] at hf
            exact Option.some_ne_none r hf
          cases r with
          | mk s e =>
            simp only [if_neg ht]
            simp [IpfsFetch.setHeader, IpfsFetch.getHeader, IpfsFetch.ipfsCat,
              IpfsFetch.DEFAULT_HEADERS]

/-- C1 counterexample: the claim as stated requires a full 200 response for
every parse outcome other than exactly one in-bounds `bytes` range.  The
header `bytes=0-4,6-8` on the 12-byte file `"Hello World!"` parses (via
`range-parser`) to TWO bytes ranges — so it is not a single-range outcome —
yet `serveFile` answers 206 (serving the first range), not 200. -/
theorem claim_C1_counterexample :
    (¬ ∃ s e, IpfsFetch.rangeParseTwo 12 "bytes=0-4,6-8" =
        IpfsFetch.RangeParse.ok "bytes" [(s, e)] ∧ s ≤ e ∧ e < 12) ∧
    (IpfsFetch.serveFile (fun _ => none) IpfsFetch.rangeParseTwo
        (fun _ => IpfsFetch.helloWorldBytes) (fun _ => ⟨IpfsFetch.EntryType.file, 12⟩)
        "/ipfs/bafyfile/example.txt" none "bytes=0-4,6-8").status = 206 := by
  constructor
  · rintro ⟨s, e, h, -, -⟩
    simp [IpfsFetch.rangeParseTwo] at h
  · decide

/-- Witness for C1: the amended theorem applied at the concrete file
`"Hello World!"` with a parser yielding the single range `[1,3]`. -/
theorem claim_C1_witness :
    (IpfsFetch.serveFile (fun _ => none) IpfsFetch.rangeParseSingle
        (fun _ => IpfsFetch.helloWorldBytes) (fun _ => ⟨IpfsFetch.EntryType.file, 12⟩)
        "/ipfs/bafyfile/example.txt" none "bytes=1-3").status = 206 ∧
    (IpfsFetch.serveFile (fun _ => none) IpfsFetch.rangeParseSingle
        (fun _ => IpfsFetch.helloWorldBytes) (fun _ => ⟨IpfsFetch.EntryType.file, 12⟩)
        "/ipfs/bafyfile/example.txt" none "bytes=1-3").body =
      IpfsFetch.BodyData.bytes [101, 108, 108] := by
  have h := (claim_C1_range_serving (fun _ => none) IpfsFetch.rangeParseSingle
    (fun _ => IpfsFetch.helloWorldBytes) (fun _ => ⟨IpfsFetch.EntryType.file, 12⟩)
    "/ipfs/bafyfile/example.txt" none "bytes=1-3").1 1 3 [] (by decide) rfl
  refine ⟨h.1, ?_⟩
  rw [h.2.2.2]
  decide

namespace IpfsFetch

/-- HTTP methods used by the adapter's routes. -/
inductive Method where
  | GET | HEAD | POST | PUT | DELETE | PATCH
deriving DecidableEq, Repr

/-- The handlers registered on the `make-fetch` router, one constructor per
distinct handler closure in the source.  `notFound` stands for the
`onNotFound` handler, which is both the router's fallback and the handler
the source registers explicitly on reserved routes. -/
inductive Handler where
  | ipldGet
  | ipldPostLocal
  | pubsubGet
  | pubsubPost
  | ipnsGetLocalKey
  | ipnsPostLocalKey
  | ipnsDeleteLocalKey
  | ipfsPostLocal
  | ipfsPut
  | ipnsPut
  | ipnsPost
  | ipfsDelete
  | ipnsDelete
  | ipfsHead
  | ipnsHead
  | ipfsGet
  | ipnsGet
  | notFound
deriving DecidableEq, Repr

/-- Host part of a route pattern: a literal hostname, or the wildcards
`*` / `**`, which both match any hostname. -/
inductive HostPat where
  | exact (s : String)
  | wild
deriving DecidableEq, Repr

/-- Path part of a route pattern: `/` matches only the root path, `/**`
matches every path. -/
inductive PathPat where
  | root
  | deep
deriving DecidableEq, Repr

/-- A route registration: method, scheme, host pattern, path pattern and
the registered handler. -/
structure Route where
  method : Method
  scheme : String
  host : HostPat
  path : PathPat
  handler : Handler
deriving DecidableEq, Repr

/-- A parsed request as the router sees it: method, URL scheme, hostname
and pathname. -/
structure Req where
  method : Method
  scheme : String
  host : String
  path : String
deriving DecidableEq, Repr

def hostMatches : HostPat → String → Bool
  | HostPat.exact s, h => h = s
  | HostPat.wild, _ => true

def pathMatches : PathPat → String → Bool
  | PathPat.root, p => p = "/"
  | PathPat.deep, _ => true

def routeMatches (r : Route) (q : Req) : Bool :=
  r.method = q.method && r.scheme = q.scheme &&
    hostMatches r.host q.host && pathMatches r.path q.path

/-- Dispatch: the first route registered that matches handles the request;
an unmatched request goes to the `onNotFound` fallback. -/
def dispatch (table : List Route) (q : Req) : Handler :=
  match table with
  | [] => Handler.notFound
  | r :: rest => if routeMatches r q then r.handler else dispatch rest q

/-- The route table exactly as `makeIPFSFetch` registers it, in program
order.  The three `if (writable)` blocks in the source gate the routes they
enclose — including the `pubsub://*/` GET and the `ipns://localhost/`
key-lookup GET.  `SPECIAL_HOSTNAME` is `'localhost'`. -/
def routeTable (writable : Bool) : List Route :=
  [⟨Method.GET, "ipld", HostPat.wild, PathPat.deep, Handler.ipldGet⟩] ++
  (if writable then
    [⟨Method.POST, "ipld", HostPat.exact "localhost", PathPat.deep, Handler.ipldPostLocal⟩]
   else []) ++
  (if writable then
    [⟨Method.GET, "pubsub", HostPat.wild, PathPat.root, Handler.pubsubGet⟩,
     ⟨Method.POST, "pubsub", HostPat.wild, PathPat.root, Handler.pubsubPost⟩]
   else []) ++
  (if writable then
    [⟨Method.GET, "ipns", HostPat.exact "localhost", PathPat.root, Handler.ipnsGetLocalKey⟩,
     ⟨Method.POST, "ipns", HostPat.exact "localhost", PathPat.root, Handler.ipnsPostLocalKey⟩,
     ⟨Method.DELETE, "ipns", HostPat.exact "localhost", PathPat.root, Handler.ipnsDeleteLocalKey⟩,
     ⟨Method.POST, "ipfs", HostPat.exact "localhost", PathPat.root, Handler.ipfsPostLocal⟩,
     ⟨Method.PUT, "ipfs", HostPat.exact "localhost", PathPat.root, Handler.notFound⟩,
     ⟨Method.PUT, "ipfs", HostPat.wild, PathPat.deep, Handler.ipfsPut⟩,
     ⟨Method.PUT, "ipns", HostPat.exact "localhost", PathPat.root, Handler.notFound⟩,
     ⟨Method.PUT, "ipns", HostPat.wild, PathPat.deep, Handler.ipnsPut⟩,
     ⟨Method.POST, "ipns", HostPat.wild, PathPat.root, Handler.ipnsPost⟩,
     ⟨Method.DELETE, "ipfs", HostPat.wild, PathPat.deep, Handler.ipfsDelete⟩,
     ⟨Method.DELETE, "ipns", HostPat.wild, PathPat.deep, Handler.ipnsDelete⟩]
   else []) ++
  [⟨Method.HEAD, "ipfs", HostPat.exact "localhost", PathPat.deep, Handler.notFound⟩,
   ⟨Method.GET, "ipfs", HostPat.exact "localhost", PathPat.deep, Handler.notFound⟩,
   ⟨Method.HEAD, "ipns", HostPat.exact "localhost", PathPat.root, Handler.notFound⟩,
   ⟨Method.GET, "ipns", HostPat.exact "localhost", PathPat.root, Handler.notFound⟩,
   ⟨Method.HEAD, "ipfs", HostPat.wild, PathPat.deep, Handler.ipfsHead⟩,
   ⟨Method.HEAD, "ipns", HostPat.wild, PathPat.deep, Handler.ipnsHead⟩,
   ⟨Method.GET, "ipfs", HostPat.wild, PathPat.deep, Handler.ipfsGet⟩,
   ⟨Method.GET, "ipns", HostPat.wild, PathPat.deep, Handler.ipnsGet⟩]

/-- A method is mutating if it is POST, PUT, DELETE or PATCH. -/
def isMutating : Method → Bool
  | Method.POST | Method.PUT | Method.DELETE | Method.PATCH => true
  | Method.GET | Method.HEAD => false

end IpfsFetch

/-- C2 (amended): the construction-time `writable` flag gates all mutating
routes — with `writable = false` every POST/PUT/DELETE/PATCH request reaches
the not-found handler — but it ALSO gates two GET routes enclosed in the
same `if (writable)` blocks: the pubsub topic GET (`pubsub://<topic>/`) and
the reserved-host key-lookup GET (`ipns://localhost/`), which likewise fall
to the not-found handler when `writable = false`.  Every other GET/HEAD
route dispatches identically for both flag values. -/
theorem claim_C2_writable_gating :
    (∀ q : IpfsFetch.Req, IpfsFetch.isMutating q.method = true →
      IpfsFetch.dispatch (IpfsFetch.routeTable false) q = IpfsFetch.Handler.notFound) ∧
    (∀ host : String,
      IpfsFetch.dispatch (IpfsFetch.routeTable false) ⟨IpfsFetch.Method.GET, "pubsub", host, "/"⟩ =
        IpfsFetch.Handler.notFound ∧
      IpfsFetch.dispatch (IpfsFetch.routeTable false)
          ⟨IpfsFetch.Method.GET, "ipns", "localhost", "/"⟩ = IpfsFetch.Handler.notFound) ∧
    (∀ q : IpfsFetch.Req, IpfsFetch.isMutating q.method = false →
      ¬(q.scheme = "pubsub" ∧ q.path = "/") →
      ¬(q.scheme = "ipns" ∧ q.host = "localhost" ∧ q.path = "/") →
      IpfsFetch.dispatch (IpfsFetch.routeTable true) q =
        IpfsFetch.dispatch (IpfsFetch.routeTable false) q) := by
  refine ⟨?_, ?_, ?_⟩
  · rintro ⟨m, s, h, p⟩ hm
    cases m
    · simp [IpfsFetch.isMutating] at hm
    · simp [IpfsFetch.isMutating] at hm
    · rfl
    · rfl
    · rfl
    · rfl
  · intro host
    exact ⟨rfl, rfl⟩
  · rintro ⟨m, s, h, p⟩ hm hpub hipns
    cases m
    case GET =>
      simp only [] at hpub hipns
      by_cases hs1 : s = "pubsub"
      · subst hs1
        have hp : ¬(p = "/") := fun hc => hpub ⟨rfl, hc⟩
        simp [IpfsFetch.dispatch, IpfsFetch.routeTable, IpfsFetch.routeMatches,
          IpfsFetch.hostMatches, IpfsFetch.pathMatches, hp]
      · by_cases hs2 : s = "ipns"
        · subst hs2
          by_cases hh : h = "localhost"
          · subst hh
            have hp : ¬(p = "/") := fun hc => hipns ⟨rfl, rfl, hc⟩
            simp [IpfsFetch.dispatch, IpfsFetch.routeTable, IpfsFetch.routeMatches,
              IpfsFetch.hostMatches, IpfsFetch.pathMatches, hp]
          · have hh' : ¬("localhost" = h) := fun hc => hh hc.symm
            simp [IpfsFetch.dispatch, IpfsFetch.routeTable, IpfsFetch.routeMatches,
              IpfsFetch.hostMatches, IpfsFetch.pathMatches, hh, hh']
        · have hs1' : ¬("pubsub" = s) := fun hc => hs1 hc.symm
          have hs2' : ¬("ipns" = s) := fun hc => hs2 hc.symm
          simp [IpfsFetch.dispatch, IpfsFetch.routeTable, IpfsFetch.routeMatches,
            IpfsFetch.hostMatches, IpfsFetch.pathMatches, hs1, hs2, hs1', hs2']
    case HEAD => rfl
    all_goals simp [IpfsFetch.isMutating] at hm

/-- C2 counterexample: the claim as stated requires every non-mutating GET
route — naming the pubsub topic GET explicitly — to behave identically for
`writable = true` and `writable = false`.  For the concrete request
`GET pubsub://mytopic/`, the writable adapter dispatches to the pubsub
handler while the non-writable one dispatches to the not-found handler. -/
theorem claim_C2_counterexample :
    IpfsFetch.dispatch (IpfsFetch.routeTable true)
        ⟨IpfsFetch.Method.GET, "pubsub", "mytopic", "/"⟩ = IpfsFetch.Handler.pubsubGet ∧
    IpfsFetch.dispatch (IpfsFetch.routeTable false)
        ⟨IpfsFetch.Method.GET, "pubsub", "mytopic", "/"⟩ = IpfsFetch.Handler.notFound ∧
    IpfsFetch.Handler.pubsubGet ≠ IpfsFetch.Handler.notFound := by
  refine ⟨by decide, by decide, by decide⟩

/-- Witness for C2: the amended theorem applied at the concrete mutating
request `PUT ipfs://somecid/file.txt` (gated to not-found) and at the
concrete non-gated request `GET ipfs://somecid/file.txt` (identical under
both flags). -/
theorem claim_C2_witness :
    IpfsFetch.dispatch (IpfsFetch.routeTable false)
        ⟨IpfsFetch.Method.PUT, "ipfs", "somecid", "/file.txt"⟩ = IpfsFetch.Handler.notFound ∧
    IpfsFetch.dispatch (IpfsFetch.routeTable true)
        ⟨IpfsFetch.Method.GET, "ipfs", "somecid", "/file.txt"⟩ =
      IpfsFetch.dispatch (IpfsFetch.routeTable false)
        ⟨IpfsFetch.Method.GET, "ipfs", "somecid", "/file.txt"⟩ := by
  refine ⟨claim_C2_writable_gating.1 ⟨IpfsFetch.Method.PUT, "ipfs", "somecid", "/file.txt"⟩
      (by decide), ?_⟩
  exact claim_C2_writable_gating.2.2 ⟨IpfsFetch.Method.GET, "ipfs", "somecid", "/file.txt"⟩
    (by decide) (by decide) (by decide)

namespace IpfsFetch

/-- Outcome of the `ipld://localhost/**` POST handler before talking to the
store: either a 400 rejection with the handler's diagnostic body, or a
`dag.put` with a chosen decode step and store codec. -/
inductive IpldPostOutcome where
  | badRequest (body : String)
  | store (decodeWith : String) (storeCodec : String)
deriving DecidableEq, Repr

/-- Codec-selection logic of `router.post('ipld://localhost/**')`.
`contentType` is the request `Content-Type`; `format` is
`searchParams.get('format')` (`none` when absent — note the source tests it
with JS truthiness, so an empty string also skips the override).  The names
in `decodeWith` identify which decoder runs on the body: `JSON.parse`,
`dagJSON.decode`, or `cbor.decode`. -/
def ipldPostSelect (contentType : String) (format : Option String) : IpldPostOutcome :=
  let withFormat (decodeWith storeCodec : String) : IpldPostOutcome :=
    match format with
    | none => IpldPostOutcome.store decodeWith storeCodec
    | some f =>
      if f = "" then IpldPostOutcome.store decodeWith storeCodec
      else if f = "dag-json" ∨ f = "dag-cbor" then IpldPostOutcome.store decodeWith f
      else IpldPostOutcome.badRequest "Unsupproted format, must be dag-json or dag-cbor"
  if contentType = "application/json" then withFormat "JSON.parse" "dag-json"
  else if contentType = "application/dag-json" then withFormat "dagJSON.decode" "dag-json"
  else if contentType = "application/vnd.ipld.dag-cbor" then withFormat "cbor.decode" "dag-cbor"
  else IpldPostOutcome.badRequest "Unsupproted content-type, must be dag-cbor, or dag-json"

/-- Response of the ipld POST handler: on a `store` outcome the CID that
`ipfs.dag.put` returns (an external value, parameter `putCid`, rendered by
`toV1().toString()`) is embedded in a 201 `Location`. -/
structure IpldPostResponse where
  status : Nat
  location : Option String
  body : String
deriving DecidableEq, Repr

/-- A CID as the multiformats library exposes it: a version (0 or 1) and an
abstract digest identifying the content. -/
structure CIDV where
  version : Nat
  digest : Nat
deriving DecidableEq, Repr

/-- `cid.toV1()`. -/
def cidToV1 (c : CIDV) : CIDV := { c with version := 1 }

/-- The multibase encodings the adapter's URLs can carry. -/
inductive Multibase where
  | base58btc
  | base32
  | base36
deriving DecidableEq, Repr

/-- `cid.toString()` with no argument: the multiformats default rendering,
base32 for v1 CIDs and base58btc for v0 CIDs.  We render the digest in
decimal after the multibase sigil (`b` for base32, `Qm` for base58btc),
keeping the encodings distinguishable without modelling the alphabets. -/
def cidDefaultStr (c : CIDV) : String :=
  if c.version = 0 then "Qm" ++ toString c.digest else "b" ++ toString c.digest

/-- `cid.toString(base36)`: base36 rendering, sigil `k`. -/
def cidBase36Str (c : CIDV) : String := "k" ++ toString c.digest

/-- Full ipld POST handler result: codec selection, then on success the
201 response with `Location: ipld://<cid.toV1()>/`. -/
def ipldPostLocal (contentType : String) (format : Option String)
    (putCid : CIDV) : IpldPostResponse :=
  match ipldPostSelect contentType format with
  | IpldPostOutcome.badRequest msg => { status := 400, location := none, body := msg }
  | IpldPostOutcome.store _ _ =>
    let addedURL := "ipld://" ++ cidDefaultStr (cidToV1 putCid) ++ "/"
    { status := 201, location := some addedURL, body := addedURL }

end IpfsFetch

/-- C3 (amended): for POST `ipld://localhost/**`, the `Content-Type` selects
the decoder AND the default store codec — `application/json` is parsed with
`JSON.parse` and stored as `dag-json` (not `dag-cbor`), `application/dag-json`
is decoded deterministically and stored as `dag-json`, and
`application/vnd.ipld.dag-cbor` is decoded and stored as `dag-cbor`.  A
nonempty `format` of `dag-json`/`dag-cbor` overrides the store codec, any
other nonempty `format` yields 400, an unsupported `Content-Type` yields
400, and a stored node answers 201 with `Location: ipld://<v1 CID>/`. -/
theorem claim_C3_ipld_post (format : Option String) (putCid : IpfsFetch.CIDV) :
    (IpfsFetch.ipldPostSelect "application/json" none =
      IpfsFetch.IpldPostOutcome.store "JSON.parse" "dag-json") ∧
    (IpfsFetch.ipldPostSelect "application/dag-json" none =
      IpfsFetch.IpldPostOutcome.store "dagJSON.decode" "dag-json") ∧
    (IpfsFetch.ipldPostSelect "application/vnd.ipld.dag-cbor" none =
      IpfsFetch.IpldPostOutcome.store "cbor.decode" "dag-cbor") ∧
    (∀ f, f ≠ "" → f ≠ "dag-json" → f ≠ "dag-cbor" →
      IpfsFetch.ipldPostSelect "application/json" (some f) =
        IpfsFetch.IpldPostOutcome.badRequest
          "Unsupproted format, must be dag-json or dag-cbor" ∧
      (IpfsFetch.ipldPostLocal "application/json" (some f) putCid).status = 400) ∧
    (∀ dec codec, IpfsFetch.ipldPostSelect "application/json" format ≠
        IpfsFetch.IpldPostOutcome.store dec codec ∨
        codec = "dag-json" ∨ codec = "dag-cbor") ∧
    (∀ ct, ct ≠ "application/json" → ct ≠ "application/dag-json" →
      ct ≠ "application/vnd.ipld.dag-cbor" →
      (IpfsFetch.ipldPostLocal ct format putCid).status = 400) ∧
    (∀ dec codec, IpfsFetch.ipldPostSelect "application/vnd.ipld.dag-cbor" format =
        IpfsFetch.IpldPostOutcome.store dec codec →
      (IpfsFetch.ipldPostLocal "application/vnd.ipld.dag-cbor" format putCid).status = 201 ∧
      (IpfsFetch.ipldPostLocal "application/vnd.ipld.dag-cbor" format putCid).location =
        some ("ipld://" ++ IpfsFetch.cidDefaultStr (IpfsFetch.cidToV1 putCid) ++ "/")) := by
  refine ⟨rfl, rfl, rfl, ?_, ?_, ?_, ?_⟩
  · intro f h1 h2 h3
    have : ¬(f = "dag-json" ∨ f = "dag-cbor") := by
      rintro (hc | hc)
      · exact h2 hc
      · exact h3 hc
    constructor
    · simp [IpfsFetch.ipldPostSelect, h1, this]
    · simp [IpfsFetch.ipldPostLocal, IpfsFetch.ipldPostSelect, h1, this]
  · intro dec codec
    cases format with
    | none =>
      by_cases h : IpfsFetch.ipldPostSelect "application/json" none =
          IpfsFetch.IpldPostOutcome.store dec codec
      · right
        have : codec = "dag-json" := by
          simp [IpfsFetch.ipldPostSelect] at h
          exact h.2.symm
        exact Or.inl this
      · exact Or.inl h
    | some f =>
      by_cases h : IpfsFetch.ipldPostSelect "application/json" (some f) =
          IpfsFetch.IpldPostOutcome.store dec codec
      · right
        by_cases hf : f = ""
        · subst hf
          simp [IpfsFetch.ipldPostSelect] at h
          exact Or.inl h.2.symm
        · by_cases hfmt : f = "dag-json" ∨ f = "dag-cbor"
          · simp [IpfsFetch.ipldPostSelect, hf, hfmt] at h
            rcases hfmt with hc | hc
            · exact Or.inl (h.2.symm.trans hc)
            · exact Or.inr (h.2.symm.trans hc)
          · simp [IpfsFetch.ipldPostSelect, hf, hfmt] at h
      · exact Or.inl h
  · intro ct h1 h2 h3
    simp [IpfsFetch.ipldPostLocal, IpfsFetch.ipldPostSelect, h1, h2, h3]
  · intro dec codec h
    simp [IpfsFetch.ipldPostLocal, h]

/-- C3 counterexample: the claim as stated says that with no `format` query
parameter the node is stored with codec `dag-cbor`.  For the concrete POST
with `Content-Type: application/json` and no `format`, the handler stores
with codec `dag-json`. -/
theorem claim_C3_counterexample :
    IpfsFetch.ipldPostSelect "application/json" none =
      IpfsFetch.IpldPostOutcome.store "JSON.parse" "dag-json" ∧
    ∀ dec, IpfsFetch.ipldPostSelect "application/json" none ≠
      IpfsFetch.IpldPostOutcome.store dec "dag-cbor" := by
  constructor
  · rfl
  · intro dec h
    simp [IpfsFetch.ipldPostSelect] at h

/-- Witness for C3: the amended theorem applied at a concrete unsupported
format, a concrete unsupported content type, and a concrete stored node. -/
theorem claim_C3_witness :
    (IpfsFetch.ipldPostLocal "application/json" (some "cbor") ⟨1, 7⟩).status = 400 ∧
    (IpfsFetch.ipldPostLocal "text/html" none ⟨1, 7⟩).status = 400 ∧
    (IpfsFetch.ipldPostLocal "application/vnd.ipld.dag-cbor" none ⟨1, 7⟩).status = 201 ∧
    (IpfsFetch.ipldPostLocal "application/vnd.ipld.dag-cbor" none ⟨1, 7⟩).location =
      some "ipld://b7/" := by
  have h := claim_C3_ipld_post none (⟨1, 7⟩ : IpfsFetch.CIDV)
  refine ⟨?_, ?_, ?_, ?_⟩
  · exact ((claim_C3_ipld_post (some "cbor") ⟨1, 7⟩).2.2.2.1 "cbor"
      (by decide) (by decide) (by decide)).2
  · exact h.2.2.2.2.2.1 "text/html" (by decide) (by decide) (by decide)
  · exact (h.2.2.2.2.2.2 "cbor.decode" "dag-cbor" rfl).1
  · have := (h.2.2.2.2.2.2 "cbor.decode" "dag-cbor" rfl).2
    simpa [IpfsFetch.cidDefaultStr, IpfsFetch.cidToV1] using this

namespace IpfsFetch

/-- `stripEndingSlash` from the source. -/
def stripEndingSlashStr (path : String) : String :=
  if strEndsWith path "/" then String.mk path.data.dropLast else path

/-- `ensureStartingSlash` from the source. -/
def ensureStartingSlashStr (path : String) : String :=
  if strStartsWith path "/" then path else "/" ++ path

/-- `posixPath.join(a, b)` for the shapes the adapter produces: non-dot
segments with `b` not starting with a slash; duplicate separators collapse. -/
def posixJoin (a b : String) : String :=
  if a = "" then b else if b = "" then a else stripEndingSlashStr a ++ "/" ++ b

/-- Response of a HEAD handler: status and headers (HEAD bodies are empty). -/
structure HeadResponse where
  status : Nat
  headers : List (String × String)
deriving DecidableEq, Repr

/-- `serveHead` from the source.  `getStat` embeds the exporter, `ls` the
`ipfs.ls` children listing as `(name, isDir)` pairs, `lookup` the MIME
database.  `noResolve` is `searchParams.has('noResolve')`; `filenameParam`
is `searchParams.get('filename')`. -/
def serveHead (lookup : String → Option String) (getStat : String → Stat)
    (ls : String → List (String × Bool)) (ipfsPath : String) (noResolve : Bool)
    (filenameParam : Option String) : HeadResponse :=
  let stat := getStat ipfsPath
  -- The directory branch either returns the bare 200 early or redirects the
  -- path to the index.html child; with `noResolve` it falls through with the
  -- directory path unchanged.
  let next : Sum HeadResponse String :=
    if stat.type = EntryType.directory then
      if ¬noResolve then
        let files := (ls ipfsPath).map (fun nd => if nd.2 then nd.1 ++ "/" else nd.1)
        if files.contains "index.html" then Sum.inr (posixJoin ipfsPath "index.html")
        else Sum.inl { status := 200, headers := DEFAULT_HEADERS }
      else Sum.inr ipfsPath
    else Sum.inr ipfsPath
  match next with
  | Sum.inl r => r
  | Sum.inr path =>
    let finalStat := getStat path
    let mimeName := jsOr filenameParam path
    { status := 200,
      headers := setHeader (setHeader (setHeader DEFAULT_HEADERS
        "Accept-Ranges" "bytes")
        "Content-Type" (getMimeType lookup mimeName))
        "Content-Length" (toString finalStat.size) }

/-- The stat-derived header block of `serveHead`'s fallthrough response:
`Accept-Ranges: bytes`, sniffed `Content-Type` and the entry's
`Content-Length`, over the default headers. -/
def statHeaders (lookup : String → Option String) (mimeName : String) (size : Nat) :
    List (String × String) :=
  setHeader (setHeader (setHeader DEFAULT_HEADERS "Accept-Ranges" "bytes")
    "Content-Type" (getMimeType lookup mimeName)) "Content-Length" (toString size)

end IpfsFetch

/-- C4 (amended): for a HEAD resolving to a directory, when `noResolve` is
absent and the listing contains `index.html`, the response carries that
file's headers (`Accept-Ranges: bytes`, its MIME `Content-Type`, and
`Content-Length` equal to the index file's size); when `noResolve` is absent
and there is no `index.html` child, the response is a bare 200 carrying only
the default headers; but when `noResolve` is PRESENT the handler falls
through and reports stat headers for the directory path itself —
`Accept-Ranges: bytes`, a `Content-Type` sniffed from the directory path,
and `Content-Length` equal to the directory's reported stat size — not a
bare 200. -/
theorem claim_C4_head_directory (lookup : String → Option String)
    (getStat : String → IpfsFetch.Stat) (ls : String → List (String × Bool))
    (path : String) (filenameParam : Option String)
    (hdir : (getStat path).type = IpfsFetch.EntryType.directory) :
    (((ls path).map (fun nd => if nd.2 then nd.1 ++ "/" else nd.1)).contains "index.html" →
      IpfsFetch.serveHead lookup getStat ls path false filenameParam =
        { status := 200,
          headers := IpfsFetch.statHeaders lookup
            (IpfsFetch.jsOr filenameParam (IpfsFetch.posixJoin path "index.html"))
            (getStat (IpfsFetch.posixJoin path "index.html")).size }) ∧
    (¬((ls path).map (fun nd => if nd.2 then nd.1 ++ "/" else nd.1)).contains "index.html" →
      IpfsFetch.serveHead lookup getStat ls path false filenameParam =
        { status := 200, headers := IpfsFetch.DEFAULT_HEADERS }) ∧
    (IpfsFetch.serveHead lookup getStat ls path true filenameParam =
      { status := 200,
        headers := IpfsFetch.statHeaders lookup (IpfsFetch.jsOr filenameParam path)
          (getStat path).size }) := by
  refine ⟨?_, ?_, ?_⟩
  · intro hidx
    unfold IpfsFetch.serveHead
    dsimp only
    rw [hdir, hidx]
    simp [IpfsFetch.statHeaders]
  · intro hidx
    have hx := Bool.of_not_eq_true hidx
    unfold IpfsFetch.serveHead
    dsimp only
    rw [hdir, hx]
    simp
  · unfold IpfsFetch.serveHead
    dsimp only
    rw [hdir]
    simp [IpfsFetch.statHeaders]

/-- C4 counterexample: the claim as stated says a directory HEAD with
`noResolve` present is an empty 200 without file headers.  For a concrete
directory of stat size 2 with one child `a.txt`, the handler with
`noResolve` answers with an `Accept-Ranges: bytes` header and a
`Content-Length` — file-style headers, not the bare default-header 200. -/
theorem claim_C4_counterexample :
    IpfsFetch.getHeader (IpfsFetch.serveHead (fun _ => none) (fun _ => ⟨IpfsFetch.EntryType.directory, 2⟩)
        (fun _ => [("a.txt", false)]) "/ipfs/broot" true none).headers "Accept-Ranges" =
      some "bytes" ∧
    (IpfsFetch.serveHead (fun _ => none) (fun _ => ⟨IpfsFetch.EntryType.directory, 2⟩)
        (fun _ => [("a.txt", false)]) "/ipfs/broot" true none).headers ≠
      IpfsFetch.DEFAULT_HEADERS := by
  constructor
  · rfl
  · decide

/-- Witness for C4: the amended theorem applied to a concrete directory
with an `index.html` child of size 12 (all three branches at concrete
inputs). -/
theorem claim_C4_witness :
    IpfsFetch.serveHead (fun _ => none)
        (fun p => if p = "/ipfs/broot/index.html" then ⟨IpfsFetch.EntryType.file, 12⟩
          else ⟨IpfsFetch.EntryType.directory, 2⟩)
        (fun _ => [("index.html", false)]) "/ipfs/broot" false none =
      { status := 200,
        headers := [("Content-Type", "text/plain; charset=utf-8"),
          ("Accept-Ranges", "bytes"), ("Content-Length", "12")] } ∧
    IpfsFetch.serveHead (fun _ => none)
        (fun p => if p = "/ipfs/broot/index.html" then ⟨IpfsFetch.EntryType.file, 12⟩
          else ⟨IpfsFetch.EntryType.directory, 2⟩)
        (fun _ => [("index.html", false)]) "/ipfs/broot" true none =
      { status := 200,
        headers := [("Content-Type", "text/plain; charset=utf-8"),
          ("Accept-Ranges", "bytes"), ("Content-Length", "2")] } := by
  have h := claim_C4_head_directory (fun _ => none)
    (fun p => if p = "/ipfs/broot/index.html" then ⟨IpfsFetch.EntryType.file, 12⟩
      else ⟨IpfsFetch.EntryType.directory, 2⟩)
    (fun _ => [("index.html", false)]) "/ipfs/broot" none (by decide)
  constructor
  · rw [h.1 (by decide)]
    decide
  · rw [h.2.2]
    decide

namespace IpfsFetch

/-- Is `sub` a contiguous infix of `s`?  JS `String.prototype.includes`. -/
def listInfix (sub s : List Char) : Bool :=
  match s with
  | [] => sub.isEmpty
  | _ :: rest => sub.isPrefixOf s || listInfix sub rest

/-- `s.includes(sub)` on strings. -/
def strIncludes (s sub : String) : Bool :=
  listInfix sub.data s.data

/-- JSON string escaping as `JSON.stringify` performs it for the characters
that can appear in directory entry names. -/
def jsonEscapeChar (c : Char) : String :=
  if c = '"' then "\\\"" else if c = '\\' then "\\\\"
  else if c = '\n' then "\\n" else if c = '\t' then "\\t"
  else if c = '\r' then "\\r" else String.mk [c]

def jsonEscape (s : String) : String :=
  String.join (s.data.map jsonEscapeChar)

/-- `JSON.stringify(files, null, '\t')`: a tab-indented JSON array of
strings, one element per line. -/
def jsonStringifyList (files : List String) : String :=
  match files with
  | [] => "[]"
  | _ =>
    "[\n" ++ String.intercalate ",\n"
      (files.map (fun f => "\t\"" ++ jsonEscape f ++ "\"")) ++ "\n]"

/-- `DEFAULT_RENDER_INDEX` from the source: the HTML directory listing
template, receiving `url.pathname` and the file list. -/
def defaultRenderIndex (pathname : String) (files : List String) : String :=
  "\n<!DOCTYPE html>\n<title>Index of " ++ pathname ++
  "</title>\n<meta name=\"viewport\" content=\"width=device-width, initial-scale=1\" />\n<h1>Index of " ++
  pathname ++ "</h1>\n<ul>\n  <li><a href=\"../\">../</a></li>\n  " ++
  String.intercalate "\n"
    (files.map (fun file => "<li><a href=\"" ++ file ++ "\">./" ++ file ++ "</a></li>")) ++
  "\n</ul>\n"

/-- The external capabilities `serveGet` composes: MIME database, range
parser, exporter stat, `ipfs.cat` bytes, `ipfs.ls` children (`none` when the
listing throws), `ipfs.block.get`, and the `dag.resolve`+`dag.export` CAR
stream. -/
structure GetEnv where
  lookup : String → Option String
  parse : Nat → String → RangeParse
  statOf : String → Stat
  contentOf : String → List Nat
  ls : String → Option (List (String × Bool))
  blockGet : String → List Nat
  dagExport : String → List Nat

/-- `serveGet` from the source.  `urlPathname` is `url.pathname` (used by
the index renderer), `format` is `searchParams.get('format')`, `accept` the
`Accept` request header, `noResolve` is `searchParams.has('noResolve')`,
`filenameParam` is `searchParams.get('filename')` and `rangeHeader` the
`Range` header after the `|| ''` default. -/
def serveGet (env : GetEnv) (urlPathname : String) (ipfsPath : String)
    (format : Option String) (accept : Option String) (noResolve : Bool)
    (filenameParam : Option String) (rangeHeader : String) : FileResponse :=
  let acceptStr := jsOr accept ""
  let expectedType := jsOr format acceptStr
  let headers := DEFAULT_HEADERS
  if expectedType = "raw" ∨ expectedType = "application/vnd.ipld.raw" then
    { status := 200,
      headers := setHeader headers "Content-Type" "application/vnd.ipld.raw",
      body := BodyData.bytes (env.blockGet ipfsPath) }
  else if expectedType = "car" ∨ expectedType = "application/vnd.ipld.car" then
    { status := 200,
      headers := setHeader headers "Content-Type" "application/vnd.ipld.car",
      body := BodyData.bytes (env.dagExport ipfsPath) }
  else
    let stat := env.statOf ipfsPath
    if stat.type = EntryType.directory then
      match env.ls ipfsPath with
      | none =>
        -- the catch-block fallback: serve the path itself as a file
        serveFile env.lookup env.parse env.contentOf env.statOf ipfsPath filenameParam
          rangeHeader headers
      | some entries =>
        let files := entries.map (fun nd => if nd.2 then nd.1 ++ "/" else nd.1)
        let listing : FileResponse :=
          if strIncludes acceptStr "text/html" then
            { status := 200,
              headers := setHeader headers "Content-Type" "text/html; charset=utf-8",
              body := BodyData.text (defaultRenderIndex urlPathname files) }
          else
            { status := 200,
              headers := setHeader headers "Content-Type" "application/json; charset=utf-8",
              body := BodyData.text (jsonStringifyList files) }
        if files.contains "index.html" ∧ ¬noResolve then
          serveFile env.lookup env.parse env.contentOf env.statOf
            (posixJoin ipfsPath "index.html") filenameParam rangeHeader headers
        else listing
    else
      serveFile env.lookup env.parse env.contentOf env.statOf ipfsPath filenameParam
        rangeHeader headers

end IpfsFetch

namespace IpfsFetch

/-- A concrete environment for witnesses: a directory `/ipfs/broot` whose
children are `example/` (a directory) and `index.html` (a 12-byte file
containing `"Hello World!"`). -/
def demoGetEnv : GetEnv where
  lookup := fun _ => none
  parse := fun _ _ => RangeParse.err
  statOf := fun p =>
    if p = "/ipfs/broot/index.html" then ⟨EntryType.file, 12⟩ else ⟨EntryType.directory, 2⟩
  contentOf := fun _ => helloWorldBytes
  ls := fun _ => some [("example", true), ("index.html", false)]
  blockGet := fun _ => []
  dagExport := fun _ => []

end IpfsFetch

/-- C5 (confirmed): for a GET whose path stats as a directory whose listing
contains `index.html` (and whose negotiated type is none of the raw/CAR
forms), when `noResolve` is absent the response IS the `serveFile` response
for the `index.html` child — same bytes, MIME sniffing and range handling —
and when `noResolve` is present the response is the listing of the
immediate children with subdirectories suffixed `/`: the rendered HTML index
when the Accept header includes `text/html`, otherwise the tab-indented
JSON array of those names. -/
theorem claim_C5_index_resolution (env : IpfsFetch.GetEnv) (urlPathname ipfsPath : String)
    (format accept filenameParam : Option String) (rangeHeader : String)
    (entries : List (String × Bool))
    (hraw1 : IpfsFetch.jsOr format (IpfsFetch.jsOr accept "") ≠ "raw")
    (hraw2 : IpfsFetch.jsOr format (IpfsFetch.jsOr accept "") ≠ "application/vnd.ipld.raw")
    (hcar1 : IpfsFetch.jsOr format (IpfsFetch.jsOr accept "") ≠ "car")
    (hcar2 : IpfsFetch.jsOr format (IpfsFetch.jsOr accept "") ≠ "application/vnd.ipld.car")
    (hdir : (env.statOf ipfsPath).type = IpfsFetch.EntryType.directory)
    (hls : env.ls ipfsPath = some entries)
    (hidx : (entries.map (fun nd => if nd.2 then nd.1 ++ "/" else nd.1)).contains
      "index.html" = true) :
    (IpfsFetch.serveGet env urlPathname ipfsPath format accept false filenameParam rangeHeader =
      IpfsFetch.serveFile env.lookup env.parse env.contentOf env.statOf
        (IpfsFetch.posixJoin ipfsPath "index.html") filenameParam rangeHeader
        IpfsFetch.DEFAULT_HEADERS) ∧
    (IpfsFetch.serveGet env urlPathname ipfsPath format accept true filenameParam rangeHeader =
      if IpfsFetch.strIncludes (IpfsFetch.jsOr accept "") "text/html" then
        { status := 200,
          headers := IpfsFetch.setHeader IpfsFetch.DEFAULT_HEADERS
            "Content-Type" "text/html; charset=utf-8",
          body := IpfsFetch.BodyData.text (IpfsFetch.defaultRenderIndex urlPathname
            (entries.map (fun nd => if nd.2 then nd.1 ++ "/" else nd.1))) }
      else
        { status := 200,
          headers := IpfsFetch.setHeader IpfsFetch.DEFAULT_HEADERS
            "Content-Type" "application/json; charset=utf-8",
          body := IpfsFetch.BodyData.text (IpfsFetch.jsonStringifyList
            (entries.map (fun nd => if nd.2 then nd.1 ++ "/" else nd.1))) }) := by
  constructor
  · unfold IpfsFetch.serveGet
    dsimp only
    rw [hdir, hls]
    dsimp only
    rw [hidx]
    simp [hraw1, hraw2, hcar1, hcar2]
  · unfold IpfsFetch.serveGet
    dsimp only
    rw [hdir, hls]
    dsimp only
    rw [hidx]
    simp [hraw1, hraw2, hcar1, hcar2]

/-- Witness for C5: the theorem applied at the concrete directory
environment — the GET without `noResolve` streams the `"Hello World!"`
bytes of `index.html`, and the GET with `noResolve` answers the JSON
listing `["example/", "index.html"]`. -/
theorem claim_C5_witness :
    (IpfsFetch.serveGet IpfsFetch.demoGetEnv "/" "/ipfs/broot" none none false none "").body =
      IpfsFetch.BodyData.bytes IpfsFetch.helloWorldBytes ∧
    (IpfsFetch.serveGet IpfsFetch.demoGetEnv "/" "/ipfs/broot" none none true none "").body =
      IpfsFetch.BodyData.text "[\n\t\"example/\",\n\t\"index.html\"\n]" := by
  have h := claim_C5_index_resolution IpfsFetch.demoGetEnv "/" "/ipfs/broot" none none none ""
    [("example", true), ("index.html", false)]
    (by decide) (by decide) (by decide) (by decide) (by decide) rfl (by decide)
  constructor
  · rw [h.1]
    decide
  · rw [h.2]
    decide

namespace IpfsFetch

/-- Lower-case hexadecimal digit. -/
def hexDigit (n : Nat) : Char :=
  if n < 10 then Char.ofNat (48 + n) else Char.ofNat (87 + n)

/-- One byte as two hex digits. -/
def hexByte (b : Nat) : String :=
  String.mk [hexDigit (b / 16 % 16), hexDigit (b % 16)]

/-- `Buffer.from(seqno).toString('hex')`. -/
def hexEncode (bs : List Nat) : String :=
  String.join (bs.map hexByte)

/-- The base64 alphabet. -/
def base64Chars : List Char :=
  "ABCDEFGHIJKLMNOPQRSTUVWXYZabcdefghijklmnopqrstuvwxyz0123456789+/".data

def b64Char (n : Nat) : Char :=
  base64Chars.getD n 'A'

/-- `Buffer.from(data).toString('base64')`: standard base64 with `=`
padding. -/
def base64Encode (bs : List Nat) : String :=
  match bs with
  | [] => ""
  | [b1] => String.mk [b64Char (b1 / 4), b64Char (b1 % 4 * 16)] ++ "=="
  | [b1, b2] =>
    String.mk [b64Char (b1 / 4), b64Char (b1 % 4 * 16 + b2 / 16), b64Char (b2 % 16 * 4)] ++ "="
  | b1 :: b2 :: b3 :: rest =>
    String.mk [b64Char (b1 / 4), b64Char (b1 % 4 * 16 + b2 / 16),
      b64Char (b2 % 16 * 4 + b3 / 64), b64Char (b3 % 64)] ++ base64Encode rest

/-- A JSON string literal: `JSON.stringify` of a string value. -/
def jsonQuote (s : String) : String :=
  "\"" ++ jsonEscape s ++ "\""

/-- `JSON.stringify` of an array of strings. -/
def jsonStrArr (xs : List String) : String :=
  "[" ++ String.intercalate "," (xs.map jsonQuote) ++ "]"

/-- A pubsub message as the subscription handler receives it:
`{from, data, topicIDs, seqno}`.  `sender` is the `from` field (a Lean
keyword). -/
structure PubsubMsg where
  sender : String
  data : List Nat
  topics : List String
  seqno : List Nat

/-- The payload-formatting step of the pubsub handler, producing the JSON
rendering of the `data` member.  For `?format=json` the payload is
`JSON.parse`d and re-serialized inside the event object: `jsonParse` is that
external composite (the `JSON.stringify` of the `JSON.parse` result), and a
parse failure is the one exception the handler's `try` can see.  For
`?format=utf8` the payload decodes as text (`utf8` is Buffer's decoder);
any other format uses base64. -/
def encodePayload (format : Option String)
    (jsonParse : List Nat → Except String String) (utf8 : List Nat → String)
    (data : List Nat) : Except String String :=
  if format = some "json" then jsonParse data
  else if format = some "utf8" then Except.ok (jsonQuote (utf8 data))
  else Except.ok (jsonQuote (base64Encode data))

/-- `JSON.stringify({from, topics, data})` with `data` already rendered:
JS preserves the insertion order `from`, `topics`, `data`. -/
def pubsubEventData (sender : String) (topics : List String) (dataRendered : String) : String :=
  "\x7b\"from\":" ++ jsonQuote sender ++ ",\"topics\":" ++ jsonStrArr topics ++
    ",\"data\":" ++ dataRendered ++ "\x7d"

/-- The SSE frame the pubsub GET handler pushes for one received message:
`id:<hex seqno>\ndata:<json>\n\n` on success, and the in-band
`type:error\ndata:<stack>\n\n` frame when the payload fails to decode. -/
def pubsubFrame (format : Option String)
    (jsonParse : List Nat → Except String String) (utf8 : List Nat → String)
    (msg : PubsubMsg) : String :=
  match encodePayload format jsonParse utf8 msg.data with
  | Except.ok rendered =>
    "id:" ++ hexEncode msg.seqno ++ "\ndata:" ++
      pubsubEventData msg.sender msg.topics rendered ++ "\n\n"
  | Except.error stack => "type:error\ndata:" ++ stack ++ "\n\n"

/-- Modelled from the claim's words, for comparison only: the frame shape
the claim asserts — a space after each field name and a JSON object holding
exactly the members `from` and `data`. -/
def claimC6StatedFrame (sender : String) (seqno : List Nat) (dataRendered : String) : String :=
  "id: " ++ hexEncode seqno ++ "\ndata: " ++
    "\x7b\"from\":" ++ jsonQuote sender ++ ",\"data\":" ++ dataRendered ++ "\x7d" ++ "\n\n"

end IpfsFetch

/-- C6 (amended): each received pubsub message yields exactly one SSE frame
`id:<seqno-as-hex>\ndata:<json>\n\n` (no space after the field names) whose
JSON object has the three members `from` (sender id), `topics` (the topic
id list) and `data` (the payload rendered per `?format`: re-serialized JSON
for `json`, the UTF-8 text for `utf8`, base64 otherwise); a payload that
fails to decode yields the in-band frame `type:error\ndata:<stack>\n\n`
instead of terminating the stream. -/
theorem claim_C6_sse_framing (format : Option String)
    (jsonParse : List Nat → Except String String) (utf8 : List Nat → String)
    (msg : IpfsFetch.PubsubMsg) :
    (IpfsFetch.pubsubFrame (some "utf8") jsonParse utf8 msg =
      "id:" ++ IpfsFetch.hexEncode msg.seqno ++ "\ndata:" ++
        IpfsFetch.pubsubEventData msg.sender msg.topics
          (IpfsFetch.jsonQuote (utf8 msg.data)) ++ "\n\n") ∧
    (format ≠ some "json" → format ≠ some "utf8" →
      IpfsFetch.pubsubFrame format jsonParse utf8 msg =
        "id:" ++ IpfsFetch.hexEncode msg.seqno ++ "\ndata:" ++
          IpfsFetch.pubsubEventData msg.sender msg.topics
            (IpfsFetch.jsonQuote (IpfsFetch.base64Encode msg.data)) ++ "\n\n") ∧
    (∀ rendered, jsonParse msg.data = Except.ok rendered →
      IpfsFetch.pubsubFrame (some "json") jsonParse utf8 msg =
        "id:" ++ IpfsFetch.hexEncode msg.seqno ++ "\ndata:" ++
          IpfsFetch.pubsubEventData msg.sender msg.topics rendered ++ "\n\n") ∧
    (∀ err, jsonParse msg.data = Except.error err →
      IpfsFetch.pubsubFrame (some "json") jsonParse utf8 msg =
        "type:error\ndata:" ++ err ++ "\n\n") := by
  refine ⟨rfl, ?_, ?_, ?_⟩
  · intro h1 h2
    simp [IpfsFetch.pubsubFrame, IpfsFetch.encodePayload, h1, h2]
  · intro rendered h
    simp [IpfsFetch.pubsubFrame, IpfsFetch.encodePayload, h]
  · intro err h
    simp [IpfsFetch.pubsubFrame, IpfsFetch.encodePayload, h]

/-- C6 counterexample: for the concrete message from `peerA` on topic
`news` with sequence bytes `[1,2]` and payload `"hi"` under the default
(base64) format, the handler's frame is
`id:0102\ndata:{"from":"peerA","topics":["news"],"data":"aGk="}\n\n` —
which differs from the claim's stated frame (space after the field names,
and a JSON object with only `from` and `data`, lacking `topics`). -/
theorem claim_C6_counterexample :
    IpfsFetch.pubsubFrame none (fun _ => Except.error "unused") (fun _ => "unused")
        ⟨"peerA", [104, 105], ["news"], [1, 2]⟩ =
      "id:0102\ndata:\x7b\"from\":\"peerA\",\"topics\":[\"news\"],\"data\":\"aGk=\"\x7d\n\n" ∧
    IpfsFetch.pubsubFrame none (fun _ => Except.error "unused") (fun _ => "unused")
        ⟨"peerA", [104, 105], ["news"], [1, 2]⟩ ≠
      IpfsFetch.claimC6StatedFrame "peerA" [1, 2] (IpfsFetch.jsonQuote "aGk=") := by
  constructor
  · decide
  · decide

/-- Witness for C6: the amended theorem applied at the concrete message,
covering the default-format frame and the error frame for a failing JSON
payload. -/
theorem claim_C6_witness :
    IpfsFetch.pubsubFrame none (fun _ => Except.error "unused") (fun _ => "unused")
        ⟨"peerA", [104, 105], ["news"], [1, 2]⟩ =
      "id:" ++ IpfsFetch.hexEncode [1, 2] ++ "\ndata:" ++
        IpfsFetch.pubsubEventData "peerA" ["news"]
          (IpfsFetch.jsonQuote (IpfsFetch.base64Encode [104, 105])) ++ "\n\n" ∧
    IpfsFetch.pubsubFrame (some "json")
        (fun _ => Except.error "SyntaxError: Unexpected token") (fun _ => "unused")
        ⟨"peerA", [104, 105], ["news"], [1, 2]⟩ =
      "type:error\ndata:SyntaxError: Unexpected token\n\n" := by
  constructor
  · exact (claim_C6_sse_framing none (fun _ => Except.error "unused") (fun _ => "unused")
      ⟨"peerA", [104, 105], ["news"], [1, 2]⟩).2.1 (by decide) (by decide)
  · exact (claim_C6_sse_framing (some "json")
      (fun _ => Except.error "SyntaxError: Unexpected token") (fun _ => "unused")
      ⟨"peerA", [104, 105], ["news"], [1, 2]⟩).2.2.2 "SyntaxError: Unexpected token" rfl

namespace IpfsFetch

/-- The encoding `cid.toString()` picks with no argument: base32 for v1,
base58btc for v0 — paired with the CID value embedded, i.e. "the CID
embedded in the URL together with its multibase". -/
def cidDefaultToken (c : CIDV) : Multibase × CIDV :=
  (if c.version = 0 then Multibase.base58btc else Multibase.base32, c)

/-- `keyToURL` from the source: parse the key's public id, force version 1,
render base36. -/
def keyToURL (id : CIDV) : String :=
  "ipns://" ++ cidBase36Str (cidToV1 id) ++ "/"

/-- The CID token a key URL embeds. -/
def keyURLToken (id : CIDV) : Multibase × CIDV :=
  (Multibase.base36, cidToV1 id)

/-- The CAR-import branch of POST `ipfs://localhost/`: for each root of the
imported archive the handler renders `ipfs://<cid.toString()>/` with no
version or multibase normalization. -/
def carImportURL (root : CIDV) : String :=
  "ipfs://" ++ cidDefaultStr root ++ "/"

/-- The CID token a CAR-import URL embeds. -/
def carImportToken (root : CIDV) : Multibase × CIDV :=
  cidDefaultToken root

/-- `uploadData`/`deleteData` URL construction:
`ipfs://<cid.toString()><path>` where `cid` is the scratch-tree
`files.stat` result (the writes request `cidVersion: 1`). -/
def uploadDataURL (statCid : CIDV) (endPath : String) : String :=
  "ipfs://" ++ cidDefaultStr statCid ++ ensureStartingSlashStr endPath

/-- The CID token an upload/delete URL embeds. -/
def uploadToken (statCid : CIDV) : Multibase × CIDV :=
  cidDefaultToken statCid

end IpfsFetch

/-- C7 (amended): mutable-name URLs always embed a version-1 base36 CID —
`keyToURL` applies `toV1()` and base36 unconditionally — while content URLs
embed the client-returned CID verbatim under `toString()`'s default
encoding, which is base32 exactly when that CID is version 1; scratch-tree
writes and deletes request `cidVersion: 1`, so their URLs are v1 base32,
but a CAR-archive import embeds the archive root's CID as-is. -/
theorem claim_C7_cid_encoding (idCid statCid root : IpfsFetch.CIDV) :
    ((IpfsFetch.cidToV1 idCid).version = 1 ∧
      IpfsFetch.keyURLToken idCid = (IpfsFetch.Multibase.base36, IpfsFetch.cidToV1 idCid) ∧
      IpfsFetch.keyToURL idCid =
        "ipns://" ++ IpfsFetch.cidBase36Str (IpfsFetch.cidToV1 idCid) ++ "/") ∧
    (statCid.version = 1 →
      IpfsFetch.uploadToken statCid = (IpfsFetch.Multibase.base32, statCid)) ∧
    (root.version = 1 →
      IpfsFetch.carImportToken root = (IpfsFetch.Multibase.base32, root)) := by
  refine ⟨⟨rfl, rfl, rfl⟩, ?_, ?_⟩
  · intro h
    simp [IpfsFetch.uploadToken, IpfsFetch.cidDefaultToken, h]
  · intro h
    simp [IpfsFetch.carImportToken, IpfsFetch.cidDefaultToken, h]

/-- C7 counterexample: importing a CAR archive whose root CID is version 0
(digest 5 here) yields the URL `ipfs://Qm5/` embedding that v0 CID in
base58btc — neither version 1 nor base32, contradicting the claim for the
CAR-archive import operation. -/
theorem claim_C7_counterexample :
    IpfsFetch.carImportURL ⟨0, 5⟩ = "ipfs://Qm5/" ∧
    IpfsFetch.carImportToken ⟨0, 5⟩ = (IpfsFetch.Multibase.base58btc, ⟨0, 5⟩) ∧
    (IpfsFetch.carImportToken ⟨0, 5⟩).2.version ≠ 1 ∧
    (IpfsFetch.carImportToken ⟨0, 5⟩).1 ≠ IpfsFetch.Multibase.base32 := by
  refine ⟨by decide, by decide, by decide, by decide⟩

/-- Witness for C7: the amended theorem applied at concrete CIDs — a v0 key
id (normalized to v1 base36) and v1 content CIDs (base32). -/
theorem claim_C7_witness :
    (IpfsFetch.cidToV1 ⟨0, 9⟩).version = 1 ∧
    IpfsFetch.keyToURL ⟨0, 9⟩ = "ipns://k9/" ∧
    IpfsFetch.uploadToken ⟨1, 4⟩ = (IpfsFetch.Multibase.base32, ⟨1, 4⟩) ∧
    IpfsFetch.carImportToken ⟨1, 4⟩ = (IpfsFetch.Multibase.base32, ⟨1, 4⟩) := by
  have h := claim_C7_cid_encoding ⟨0, 9⟩ ⟨1, 4⟩ ⟨1, 4⟩
  refine ⟨h.1.1, ?_, h.2.1 rfl, h.2.2 rfl⟩
  rw [h.1.2.2]
  decide

namespace IpfsFetch

/-- One part of a parsed multipart form, as `request.formData()` iterates
it: the field name, the filename (`""` when the part carries none — the JS
falsy check), and the part's bytes. -/
structure FormPart where
  field : String
  name : String
  content : List Nat
deriving DecidableEq, Repr

/-- The write loop of `uploadData` for multipart forms: each part with field
name `file` and a (truthy) filename is written to
`posixPath.join(tmpDir, relativePath, fileName)`; every other part is
skipped.  The result is the ordered list of `(path, bytes)` writes. -/
def formWrites (tmpDir relativePath : String) (parts : List FormPart) :
    List (String × List Nat) :=
  parts.filterMap (fun p =>
    if p.field ≠ "file" then none
    else if p.name = "" then none
    else some (posixJoin (posixJoin tmpDir relativePath) p.name, p.content))

/-- Upper-case hexadecimal digit, as `encodeURIComponent` renders it. -/
def pctHexDigit (n : Nat) : Char :=
  if n < 10 then Char.ofNat (48 + n) else Char.ofNat (55 + n)

def specPercentEncodeChar (c : Char) : String :=
  if c.isAlphanum ∨ c = '-' ∨ c = '_' ∨ c = '.' ∨ c = '!' ∨ c = '~' ∨ c = '*' ∨
      c = '\'' ∨ c = '(' ∨ c = ')' then String.mk [c]
  else "%" ++ String.mk [pctHexDigit (c.toNat / 16 % 16), pctHexDigit (c.toNat % 16)]

/-- Modelled from the spec's words, for comparison only: the
percent-encoding (`encodeURIComponent` on ASCII filenames) the claim says
is applied to each part's filename before writing. -/
def specPercentEncode (s : String) : String :=
  String.join (s.data.map specPercentEncodeChar)

end IpfsFetch

/-- C8 (amended): the multipart write loop writes exactly those parts whose
field name is the literal `file` and which carry a filename, each to the
path joined from the scratch root, the request's relative path, and the
part's filename used VERBATIM (no percent-encoding is applied); all other
parts are ignored. -/
theorem claim_C8_form_writes (tmpDir relativePath : String)
    (parts : List IpfsFetch.FormPart) :
    IpfsFetch.formWrites tmpDir relativePath parts =
      (parts.filter (fun p => p.field = "file" ∧ p.name ≠ "")).map
        (fun p => (IpfsFetch.posixJoin (IpfsFetch.posixJoin tmpDir relativePath) p.name,
          p.content)) := by
  induction parts with
  | nil => rfl
  | cons p ps ih =>
    by_cases h1 : p.field = "file"
    · by_cases h2 : p.name = ""
      · simp [IpfsFetch.formWrites, List.filterMap_cons, List.filter_cons, h1, h2] at *
        exact ih
      · simp [IpfsFetch.formWrites, List.filterMap_cons, List.filter_cons, h1, h2] at *
        exact ih
    · simp [IpfsFetch.formWrites, List.filterMap_cons, List.filter_cons, h1] at *
      exact ih

/-- C8 counterexample: for a part named `my file.txt` under field `file`,
the handler writes to `/ipfs-fetch-dirs/abc/sub/my file.txt` — the filename
verbatim — not to the percent-encoded `.../my%20file.txt` the claim
states. -/
theorem claim_C8_counterexample :
    IpfsFetch.formWrites "/ipfs-fetch-dirs/abc" "sub"
        [⟨"file", "my file.txt", [1, 2]⟩] =
      [("/ipfs-fetch-dirs/abc/sub/my file.txt", [1, 2])] ∧
    IpfsFetch.specPercentEncode "my file.txt" = "my%20file.txt" ∧
    IpfsFetch.formWrites "/ipfs-fetch-dirs/abc" "sub"
        [⟨"file", "my file.txt", [1, 2]⟩] ≠
      [(IpfsFetch.posixJoin (IpfsFetch.posixJoin "/ipfs-fetch-dirs/abc" "sub")
          (IpfsFetch.specPercentEncode "my file.txt"), [1, 2])] := by
  refine ⟨by decide, by decide, by decide⟩

namespace IpfsFetch

/-- One entry of `ipfs.key.list()`: a local alias and the public id.  The
id is the parsed CID of the public key (`CID.parse` on the id string, which
succeeds for every id the client returns). -/
structure IpfsKey where
  name : String
  id : CIDV
deriving DecidableEq, Repr

/-- `hasKey` from the source: the first key whose alias matches, or whose
public id — forced to version 1 and rendered base36 — matches. -/
def hasKey (keys : List IpfsKey) (keyName : String) : Option IpfsKey :=
  keys.find? (fun k => k.name = keyName ∨ cidBase36Str (cidToV1 k.id) = keyName)

/-- Response of the key-management handlers on `ipns://localhost/`. -/
structure KeyResponse where
  status : Nat
  location : Option String
deriving DecidableEq, Repr

/-- GET `ipns://localhost/?key=<keyName>`: 404 when `hasKey` finds nothing,
otherwise a 302 whose `Location` is the key's URL. -/
def ipnsGetLocalKey (keys : List IpfsKey) (keyName : String) : KeyResponse :=
  match hasKey keys keyName with
  | none => { status := 404, location := none }
  | some k => { status := 302, location := some (keyToURL k.id) }

/-- POST `ipns://localhost/?key=<keyName>`: generate the key when `hasKey`
finds nothing (`freshId` is the public id the client mints), re-run
`hasKey`, and answer 201 with the key URL.  The unreachable `none` branch
models `keyToURL(undefined)` throwing (a 500 through the error mapper). -/
def ipnsPostLocalKey (keys : List IpfsKey) (keyName : String) (freshId : CIDV) :
    List IpfsKey × KeyResponse :=
  let keys' :=
    match hasKey keys keyName with
    | some _ => keys
    | none => keys ++ [⟨keyName, freshId⟩]
  match hasKey keys' keyName with
  | some k => (keys', { status := 201, location := some (keyToURL k.id) })
  | none => (keys', { status := 500, location := none })

/-- `ipfs.key.rm(name)`: removal by exact alias.  (A missing alias is an
upstream error; in either reading no entry with a different alias is
touched.) -/
def keyRm (keys : List IpfsKey) (keyName : String) : List IpfsKey :=
  keys.filter (fun k => ¬(k.name = keyName))

/-- DELETE `ipns://localhost/?key=<keyName>`: the handler passes the query
value verbatim to `ipfs.key.rm` and answers 200. -/
def ipnsDeleteLocalKey (keys : List IpfsKey) (keyName : String) :
    List IpfsKey × KeyResponse :=
  (keyRm keys keyName, { status := 200, location := none })

end IpfsFetch

/-- C9 (confirmed): POST `ipns://localhost/?key=A` is idempotent — when a
key matching `A` exists nothing is created and the response is 201 with
`Location` the existing key's URL (`ipns://<v1-base36 public id>/` via
`keyToURL`); when none exists exactly one key `⟨A, freshId⟩` is appended and
the response is 201 with that key's URL; and a second identical POST leaves
the key set unchanged and returns the same response. -/
theorem claim_C9_key_post_idempotent (keys : List IpfsFetch.IpfsKey) (A : String)
    (fresh fresh2 : IpfsFetch.CIDV) :
    (∀ k, IpfsFetch.hasKey keys A = some k →
      IpfsFetch.ipnsPostLocalKey keys A fresh =
        (keys, { status := 201, location := some (IpfsFetch.keyToURL k.id) })) ∧
    (IpfsFetch.hasKey keys A = none →
      IpfsFetch.ipnsPostLocalKey keys A fresh =
        (keys ++ [⟨A, fresh⟩],
          { status := 201, location := some (IpfsFetch.keyToURL fresh) })) ∧
    (IpfsFetch.ipnsPostLocalKey (IpfsFetch.ipnsPostLocalKey keys A fresh).1 A fresh2 =
      IpfsFetch.ipnsPostLocalKey keys A fresh) := by
  have happ : IpfsFetch.hasKey keys A = none →
      IpfsFetch.hasKey (keys ++ [(⟨A, fresh⟩ : IpfsFetch.IpfsKey)]) A =
        some ⟨A, fresh⟩ := by
    intro h
    unfold IpfsFetch.hasKey at *
    rw [List.find?_append, h]
    simp
  refine ⟨?_, ?_, ?_⟩
  · intro k hk
    simp [IpfsFetch.ipnsPostLocalKey, hk]
  · intro h
    simp [IpfsFetch.ipnsPostLocalKey, h, happ h]
  · cases hk : IpfsFetch.hasKey keys A with
    | some k =>
      simp [IpfsFetch.ipnsPostLocalKey, hk]
    | none =>
      simp [IpfsFetch.ipnsPostLocalKey, hk, happ hk]

/-- Witness for C9: the theorem applied at the concrete empty key set — the
first POST of alias `put-file` creates the key and answers
`Location: ipns://k9/`, and the second POST returns the identical state and
response. -/
theorem claim_C9_witness :
    IpfsFetch.ipnsPostLocalKey [] "put-file" ⟨0, 9⟩ =
      ([⟨"put-file", ⟨0, 9⟩⟩], { status := 201, location := some "ipns://k9/" }) ∧
    IpfsFetch.ipnsPostLocalKey [⟨"put-file", ⟨0, 9⟩⟩] "put-file" ⟨0, 11⟩ =
      ([⟨"put-file", ⟨0, 9⟩⟩], { status := 201, location := some "ipns://k9/" }) := by
  have h := claim_C9_key_post_idempotent [] "put-file" ⟨0, 9⟩ ⟨0, 11⟩
  have h1 := h.2.1 rfl
  constructor
  · rw [h1]
    decide
  · have h2 := h.2.2
    rw [h1] at h2
    exact h2.trans (by decide)

/-- C10 (confirmed): key lookup and key deletion are asymmetric — GET (and
POST) match the `key` query value against the alias OR the v1 base36 form
of the public id via `hasKey`, while DELETE passes the value verbatim to
`ipfs.key.rm`, which removes by alias only.  So for a key stored under
alias `A`, a DELETE using the public id `P` that GET resolves with a 302
removes nothing: the alias entry survives. -/
theorem claim_C10_delete_asymmetry (keys : List IpfsFetch.IpfsKey)
    (k : IpfsFetch.IpfsKey) (P : String) (hmem : k ∈ keys)
    (hP : P = IpfsFetch.cidBase36Str (IpfsFetch.cidToV1 k.id))
    (hname : ∀ k' ∈ keys, k'.name ≠ P) :
    (IpfsFetch.ipnsGetLocalKey keys P).status = 302 ∧
    (IpfsFetch.ipnsDeleteLocalKey keys P).1 = keys ∧
    k ∈ (IpfsFetch.ipnsDeleteLocalKey keys P).1 := by
  have hsome : (IpfsFetch.hasKey keys P).isSome := by
    unfold IpfsFetch.hasKey
    rw [List.find?_isSome]
    exact ⟨k, hmem, by simp [hP]⟩
  have hfilter : IpfsFetch.keyRm keys P = keys := by
    unfold IpfsFetch.keyRm
    rw [List.filter_eq_self]
    intro a ha
    simpa using hname a ha
  refine ⟨?_, ?_, ?_⟩
  · unfold IpfsFetch.ipnsGetLocalKey
    cases hk : IpfsFetch.hasKey keys P with
    | none => rw [hk] at hsome; simp at hsome
    | some k' => simp
  · simpa [IpfsFetch.ipnsDeleteLocalKey] using hfilter
  · simpa [IpfsFetch.ipnsDeleteLocalKey, hfilter] using hmem

/-- Witness for C10: for the singleton key set holding alias `put-file`
with public id rendered `k9`, GET with `key=k9` answers 302 while DELETE
with `key=k9` leaves the key set unchanged. -/
theorem claim_C10_witness :
    (IpfsFetch.ipnsGetLocalKey [⟨"put-file", ⟨0, 9⟩⟩] "k9").status = 302 ∧
    (IpfsFetch.ipnsDeleteLocalKey [⟨"put-file", ⟨0, 9⟩⟩] "k9").1 =
      [⟨"put-file", ⟨0, 9⟩⟩] := by
  have h := claim_C10_delete_asymmetry [⟨"put-file", ⟨0, 9⟩⟩] ⟨"put-file", ⟨0, 9⟩⟩
    "k9" (by decide) (by decide) (by decide)
  exact ⟨h.1, h.2.1⟩
